import Mathlib

/-!
Shallow embedding of the "Mama AI" voice-chat client (React/TypeScript) for
specification checking.

Sources embedded:
* `src/components/LiveChat.tsx` — session connection manager (retry policy,
  message handler with playback scheduling, interruption, close handling,
  teardown via `stopSession`, session configuration).
* the FLAMES compatibility game component (`calculateFlames`).

JavaScript strings are modelled as Lean `String`, numeric time values as `ℚ`
(the event-loop code never relies on float rounding for the claims checked
here), and DOM/WebAudio objects as explicit state records.  Fallible
operations are modelled with `Except`/`Option`; `try { … } catch { … }`
becomes an explicit recovery on those values.
-/

namespace MamaAI

/-- Substring test, modelling JavaScript `String.prototype.includes`. -/
def strIncludes (s pat : String) : Bool :=
  decide (List.IsInfix pat.toList s.toList)

/-- Languages offered by the UI (`LANGUAGES` in LiveChat.tsx, line 10). -/
inductive Language where
  | english | hindi | tamil | telugu | malayalam | kannada
deriving DecidableEq, Repr

/-- The language's display name, as the TypeScript union of string literals. -/
def Language.name : Language → String
  | .english => "English"
  | .hindi => "Hindi"
  | .tamil => "Tamil"
  | .telugu => "Telugu"
  | .malayalam => "Malayalam"
  | .kannada => "Kannada"

/-- Persona mode (`type Mode = 'mama' | 'love'`, LiveChat.tsx line 8). -/
inductive Mode where
  | mama | love
deriving DecidableEq, Repr

/-- `MAX_RETRIES` constant, LiveChat.tsx line 11. -/
def MAX_RETRIES : Nat := 3

/-- `RETRY_DELAY_MS` constant, LiveChat.tsx line 12. -/
def RETRY_DELAY_MS : Nat := 2000

/-- Voice identity chosen in `connectWithRetry` (LiveChat.tsx line 176):
`selectedMode === 'mama' ? 'Puck' : 'Kore'`. -/
def voiceName : Mode → String
  | .mama => "Puck"
  | .love => "Kore"

/-- `getSystemInstruction` (LiveChat.tsx lines 107-125): the system prompt is a
template literal parameterized by the language, chosen by mode. -/
def getSystemInstruction (lang : Language) (mode : Mode) : String :=
  match mode with
  | .mama =>
      "\n        You are \"Mama\", a wise, warm, and caring Indian man (like a supportive uncle or grandfather). \n        You speak "
        ++ lang.name
        ++ ". \n        Your tone is grounded, respectful, and wise. \n        You give empathetic advice on life, personal growth, and general ideas.\n        CRITICAL: Your voice is MALE. Speak ONLY in "
        ++ lang.name
        ++ ". Be a good listener.\n      "
  | .love =>
      "\n        You are \"Priya\", a sweet, realistic Indian girl. \n        You are helping the user practice \"Love Speaking\" or simply having a romantic, affectionate conversation.\n        You speak "
        ++ lang.name
        ++ ".\n        Your tone is soft, slightly shy but engaging, and very affectionate.\n        CRITICAL: Your voice is FEMALE. Speak ONLY in "
        ++ lang.name
        ++ ". Act like a loving partner or girlfriend.\n      "

/-! FLAMES game (`calculateFlames` in the FlamesGame component). -/

/-- Result record (`FlamesResult` in types.ts). The `score` field is set to the
overlap `count`. -/
structure FlamesResult where
  status : String
  description : String
  score : Nat
deriving DecidableEq, Repr

/-- JavaScript `String.prototype.trim`: strips leading and trailing
whitespace (used for the empty-name guard of `calculateFlames`). -/
def jsTrim (s : String) : String :=
  String.mk (((s.toList.dropWhile Char.isWhitespace).reverse.dropWhile Char.isWhitespace).reverse)

/-- Name normalization: `name.toLowerCase().replace(/\s+/g, '').split('')`. -/
def normalizeName (s : String) : List Char :=
  (s.toList.map Char.toLower).filter (fun c => !c.isWhitespace)

/-- The common-character removal loop of `calculateFlames`: for each index `i`
of `n1`, if `n2.indexOf(n1[i])` is not `-1`, both occurrences are overwritten
with the marker `'*'`.  The arrays are mutated in place, so later iterations
see earlier markers (faithful to the source). -/
def markLoop (n1 n2 : List Char) : List Char × List Char :=
  (List.range n1.length).foldl
    (fun (p : List Char × List Char) i =>
      match p.1.get? i with
      | some c =>
          match p.2.findIdx? (fun d => d == c) with
          | some j => (p.1.set i '*', p.2.set j '*')
          | none => p
      | none => p)
    (n1, n2)

/-- The overlap count: characters surviving the marking in both arrays
(`n1.filter(c => c !== '*').length + n2.filter(c => c !== '*').length`). -/
def flamesCount (name1 name2 : String) : Nat :=
  let p := markLoop (normalizeName name1) (normalizeName name2)
  (p.1.filter (fun c => c != '*')).length + (p.2.filter (fun c => c != '*')).length

/-- The elimination loop body, fueled for structural recursion: `while
(activeFlames.length > 1) { idx = (idx + count - 1) % activeFlames.length;
activeFlames.splice(idx, 1); }`.  Each pass removes exactly one element, so any
fuel with `length ≤ fuel + 1` makes the fueled version agree with the loop. -/
def eliminateGo (fuel : Nat) (activeFlames : List Char) (count idx : Nat) : List Char :=
  match fuel with
  | 0 => activeFlames
  | fuel + 1 =>
    if 1 < activeFlames.length then
      let idx2 := (idx + count - 1) % activeFlames.length
      eliminateGo fuel (activeFlames.eraseIdx idx2) count idx2
    else activeFlames

/-- The elimination loop of `calculateFlames`; only invoked with `count > 0`,
where JavaScript and `Nat` arithmetic agree.  The loop strictly shrinks the
list, so `activeFlames.length` rounds of fuel always suffice. -/
def eliminate (activeFlames : List Char) (count idx : Nat) : List Char :=
  eliminateGo activeFlames.length activeFlames count idx

/-- The `switch (finalChar)` mapping a letter to (status, description);
`none` models reading `activeFlames[0]` out of bounds (JavaScript
`undefined`), which would fall to the `default` branch. -/
def flamesSwitch : Option Char → String × String
  | some 'F' => ("Friends", "A solid friendship is the foundation of everything good.")
  | some 'L' => ("Lovers", "Passion is in the air! A romantic connection.")
  | some 'A' => ("Affection", "There is a sweet fondness and liking between you two.")
  | some 'M' => ("Marriage", "Destiny points towards a lifelong commitment.")
  | some 'E' => ("Enemies", "Uh oh! You might rub each other the wrong way.")
  | some 'S' => ("Siblings", "A bond as deep as family, or soulmates in disguise.")
  | _ => ("Unknown", "The stars are confused.")

/-- `calculateFlames`: early-returns `none` when either trimmed name is empty;
otherwise computes the overlap count, runs the elimination over
`['F','L','A','M','E','S']` when `count > 0` (else `'S'` directly), and maps
the surviving letter through the switch. -/
def calculateFlames (name1 name2 : String) : Option FlamesResult :=
  if jsTrim name1 = "" ∨ jsTrim name2 = "" then none
  else
    let count := flamesCount name1 name2
    let finalChar : Option Char :=
      if 0 < count then (eliminate ['F', 'L', 'A', 'M', 'E', 'S'] count 0).head?
      else some 'S'
    let sd := flamesSwitch finalChar
    some ⟨sd.1, sd.2, count⟩

/-! Session connection manager (`LiveChat.tsx`): error classification and the
bounded retry loop `connectWithRetry`. -/

/-- JavaScript `String.prototype.toLowerCase` (ASCII case mapping, which is all
the matched patterns use). -/
def jsToLower (s : String) : String :=
  String.mk (s.toList.map Char.toLower)

/-- `getFriendlyErrorMessage` (LiveChat.tsx lines 37-55): normalizes a raw
error message into one of the friendly categories by substring matching on the
lowercased text. -/
def getFriendlyErrorMessage (msg : String) : String :=
  let m := jsToLower msg
  if strIncludes m "401" || strIncludes m "unauthenticated" || strIncludes m "api key" then
    "Authentication failed. Please check your API Key configuration."
  else if strIncludes m "403" || strIncludes m "permission denied" then
    "Access denied. Your API Key may not have permission to use this model."
  else if strIncludes m "503" || strIncludes m "unavailable" || strIncludes m "overloaded" then
    "Service is temporarily unavailable. Please try again later."
  else if strIncludes m "network" || strIncludes m "fetch" || strIncludes m "failed to fetch" then
    "Network error. Please check your internet connection."
  else if strIncludes m "microphone" || strIncludes m "media device" then
    "Microphone access denied or not found."
  else "Connection error: " ++ m

/-- The fatal-failure classification in `connectWithRetry`'s catch block
(LiveChat.tsx lines 298-301): `err.message?.includes("401") ||
err.message?.includes("API key") || err.message?.includes("Permission
denied")` (case-sensitive, on the raw message). -/
def isFatalConnectionError (msg : String) : Bool :=
  strIncludes msg "401" || strIncludes msg "API key" || strIncludes msg "Permission denied"

/-- Outcome trace of one run of the retry loop: `attempts` lists the attempt
indices at which a connection was actually tried (line 182), `retries` the
scheduled `setTimeout` retries as (delay ms, next attempt index) pairs (line
304), and `final` is `none` when a connection succeeded or `some friendlyMsg`
when the loop stopped and surfaced the last error before tearing down
(lines 306-308). -/
structure RunResult where
  attempts : List Nat
  retries : List (Nat × Nat)
  final : Option String
deriving DecidableEq, Repr

/-- `connectWithRetry` (LiveChat.tsx lines 169-311) with a user-stop flag that
stays constant over the run (the flag is only read in the catch block, line
303).  `outcome attempt` is `none` when the connection attempt succeeds and
`some rawMessage` when it fails with that error message.  On failure: retry
after `RETRY_DELAY_MS` with the attempt count incremented when the error is
not fatal, the attempt count is below `MAX_RETRIES` and the stop was not
user-initiated; otherwise stop and surface the friendly form of the last
error. -/
def connectWithRetry (outcome : Nat → Option String) (userStopped : Bool)
    (attempt : Nat) : RunResult :=
  match outcome attempt with
  | none => ⟨[attempt], [], none⟩
  | some msg =>
    if h : isFatalConnectionError msg = false ∧ attempt < MAX_RETRIES ∧ userStopped = false then
      let rest := connectWithRetry outcome userStopped (attempt + 1)
      ⟨attempt :: rest.attempts, (RETRY_DELAY_MS, attempt + 1) :: rest.retries, rest.final⟩
    else ⟨[attempt], [], some (getFriendlyErrorMessage msg)⟩
termination_by MAX_RETRIES + 1 - attempt
decreasing_by
  have := h.2.1
  omega

/-! Playback scheduler: the audio branch of `onmessage` (LiveChat.tsx lines
231-260) keeps a playback cursor `nextStartTimeRef` and schedules each decoded
buffer back-to-back. -/

/-- One scheduling step of the `onmessage` audio branch: `now` is
`outputCtx.currentTime` when the buffer is handled, `cursorBefore` the value of
`nextStartTimeRef` on entry; the code clamps the cursor up to `now` (lines
235-237), starts the source at the clamped cursor (line 254) and advances the
cursor by the buffer's duration (line 255). -/
structure SchedStep where
  now : ℚ
  cursorBefore : ℚ
  start : ℚ
  dur : ℚ
  cursorAfter : ℚ
deriving DecidableEq, Repr

/-- The cursor clamp of lines 235-237 followed by the start/advance of lines
254-255, as (scheduled start, new cursor). -/
def scheduleBuffer (cursor now dur : ℚ) : ℚ × ℚ :=
  let start := if cursor < now then now else cursor
  (start, start + dur)

/-- A run of consecutive uninterrupted enqueues, each handled to completion in
arrival order; `inputs` lists each buffer's (device time at enqueue,
duration). -/
def schedTrace (cursor : ℚ) : List (ℚ × ℚ) → List SchedStep
  | [] => []
  | (now, dur) :: rest =>
    let p := scheduleBuffer cursor now dur
    ⟨now, cursor, p.1, dur, p.2⟩ :: schedTrace p.2 rest

/-! Interruption handling (`onmessage` lines 262-270), inbound audio decoding
(lines 231-260), the close handler (lines 272-276) and capture forwarding
(lines 213-222). -/

/-- Playback state touched by the message handler: the active source set (a JS
`Set` iterated in insertion order, modelled as a list of handle ids), the
playback cursor `nextStartTimeRef`, and the `isTalking` flag. -/
structure PlaybackState where
  sources : List Nat
  nextStartTime : ℚ
  isTalking : Bool
deriving DecidableEq, Repr

/-- `src.stop()` on one buffer source handle: throws an `InvalidStateError` on
an already-finished (never-started or already-stopped) handle, modelled by
membership in `failing`. -/
def sourceStop (failing : List Nat) (h : Nat) : Except String Unit :=
  if h ∈ failing then Except.error "InvalidStateError" else Except.ok ()

/-- The interruption branch of `onmessage`:
`sourcesRef.current.forEach(src => { try { src.stop(); } catch (e) {} });
sourcesRef.current.clear(); nextStartTimeRef.current = 0; setIsTalking(false);`
Returns the new state together with the handles that received a stop call;
each stop failure is caught, so the loop visits every handle. -/
def interrupt (failing : List Nat) (s : PlaybackState) : PlaybackState × List Nat :=
  let calls := s.sources.map (fun h =>
    match sourceStop failing h with
    | .ok _ => h
    | .error _ => h)
  (⟨[], 0, false⟩, calls)

/-- Modelled from the spec: `decodeAudioData` of `../utils/audio` (the file is
not part of the repository snapshot; §4.1 of the spec describes it): bytes are
interpreted as little-endian 16-bit signed integers normalized to [-1, 1] at
24 kHz mono, and decoding fails with a `DecodeError` on a truncated/misaligned
(odd) byte length. -/
def decodeAudioData : List Nat → Except String (List ℚ)
  | [] => .ok []
  | [_] => .error "DecodeError"
  | lo :: hi :: rest =>
    match decodeAudioData rest with
    | .error e => .error e
    | .ok samples =>
        let v : ℤ := (lo % 256 : Nat) + 256 * ((hi % 256 : Nat) : ℤ)
        let signed : ℤ := if 32768 ≤ v then v - 65536 else v
        .ok ((signed : ℚ) / 32768 :: samples)

/-- The audio branch of `onmessage` for an inbound audio payload (given as the
bytes of the base64-decoded data): `setIsTalking(true)` and the cursor clamp
(lines 233-237) run before the `try`; decoding and scheduling sit inside
`try { … } catch (decodeErr) { console.error(…) }`, so a decode failure drops
the frame and the handler returns normally with the pre-`try` updates kept.
`newHandle` is the id of the buffer source created on success. -/
def handleAudioMessage (bytes : List Nat) (now : ℚ) (newHandle : Nat)
    (s : PlaybackState) : PlaybackState :=
  let s1 : PlaybackState :=
    { s with isTalking := true,
             nextStartTime := if s.nextStartTime < now then now else s.nextStartTime }
  match decodeAudioData bytes with
  | .error _ => s1
  | .ok samples =>
      let dur : ℚ := (samples.length : ℚ) / 24000
      { s1 with nextStartTime := s1.nextStartTime + dur,
                sources := s1.sources ++ [newHandle] }

/-- Session-level state read by the close handler and the capture pipeline:
the two UI flags set by `onclose`, whether the script processor tap is still
attached (its `onaudioprocess` firing), and whether `sessionPromiseRef
.current` is non-null. -/
structure SessionState where
  connected : Bool
  isTalking : Bool
  processorAttached : Bool
  sessionPromiseSet : Bool
deriving DecidableEq, Repr

/-- `onclose` (LiveChat.tsx lines 272-276): the entire handler is
`setConnected(false); setIsTalking(false);` — nothing else is touched. -/
def onclose (s : SessionState) : SessionState :=
  { s with connected := false, isTalking := false }

/-- Whether a capture frame produced by `processor.onaudioprocess` (lines
213-222) is forwarded to the session: the tap must still be attached and the
optional chain `sessionPromiseRef.current?.then(session =>
session.sendRealtimeInput(…))` requires a non-null session promise (send
errors are silently caught, line 219-221). -/
def captureForwards (s : SessionState) : Bool :=
  s.processorAttached && s.sessionPromiseSet

/-! Event-loop view of the retry timer for user-initiated stop
(`stopSession` line 59, `connectWithRetry` lines 294-310). -/

/-- Event-loop state around a scheduled retry: `pendingRetry` carries the
attempt index a pending `setTimeout(() => connectWithRetry(attempt + 1),
RETRY_DELAY_MS)` will run with (none when no timer is pending);
`attemptsMade` logs every connection attempt started (line 182). -/
structure RetryTimerState where
  pendingRetry : Option Nat
  userStopped : Bool
  connected : Bool
  attemptsMade : List Nat
deriving DecidableEq, Repr

/-- User-initiated stop (`stopSession`, lines 58-100) as it affects the retry
machinery: it sets `userInitiatedDisconnect.current = true` and resets the UI
state, but no timer handle is ever stored, so the pending `setTimeout` is not
cleared. -/
def userStop (s : RetryTimerState) : RetryTimerState :=
  { s with userStopped := true, connected := false }

/-- A pending retry timer fires: the callback `connectWithRetry(attempt + 1)`
starts a new connection attempt right away (line 182) without consulting
`userInitiatedDisconnect`; the flag is read only inside the `catch` handler
(line 303), after the attempt has failed, to decide whether to schedule yet
another retry.  `outcome` is the attempt's result (`none` = the connection
opens, `some msg` = it fails with that message). -/
def fireRetryTimer (outcome : Option String) (s : RetryTimerState) : RetryTimerState :=
  match s.pendingRetry with
  | none => s
  | some attempt =>
    let s1 : RetryTimerState :=
      { s with pendingRetry := none, attemptsMade := s.attemptsMade ++ [attempt] }
    match outcome with
    | none => { s1 with connected := true }
    | some msg =>
      if isFatalConnectionError msg = false ∧ attempt < MAX_RETRIES ∧ s1.userStopped = false then
        { s1 with pendingRetry := some (attempt + 1) }
      else s1

/-! Teardown (`stopSession`, LiveChat.tsx lines 58-100) and the start guard
(`startSession`, lines 127-167). -/

/-- Lifecycle of an `AudioContext`. -/
inductive CtxLifecycle where
  | running | suspended | closed
deriving DecidableEq, Repr

/-- Resource environment seen by `stopSession`.  Failure modes of the release
operations are part of the environment: `disconnectFailing` makes the node
`disconnect()` calls throw, `sourceStopFailing` lists source handles whose
`stop()` throws.  `AudioContext.close()` returns a promise whose rejection is
consumed by `.catch(console.error)`, and `MediaStreamTrack.stop()` never
throws (stopping an already-stopped track is a no-op). -/
structure StopEnv where
  inputCtx : Option CtxLifecycle
  outputCtx : Option CtxLifecycle
  streamTracks : Option (List Bool)
  processorSet : Bool
  inputSourceSet : Bool
  sessionPromiseSet : Bool
  aiClientSet : Bool
  sources : List Nat
  nextStartTime : ℚ
  connected : Bool
  isTalking : Bool
  isRetrying : Bool
  errorMessage : Option String
  userInitiatedDisconnect : Bool
  disconnectFailing : Bool
  sourceStopFailing : List Nat
deriving DecidableEq, Repr

/-- Catch-and-log: a `try { op } catch (e) { console.warn(…) }` (or a promise
`.catch(console.error)`) consumes the failure and continues. -/
def catchLog (op : Except String Unit) : Unit :=
  match op with
  | .ok _ => ()
  | .error _ => ()

/-- `stopSession` (lines 58-100).  Line 59 sets the user-stop flag; lines
62-67 close any context not already closed (rejections consumed by `.catch`);
lines 70-72 stop every stream track (infallible); lines 75-80 run both node
disconnects inside one try/catch; lines 83-86 stop each source inside its own
try/catch and clear the set; lines 89-94 null the context/stream/processor/
session refs and reset the cursor (`inputSourceRef` and `aiClientRef` are not
in this list); lines 97-99 reset the three UI flags (the error message is not
touched).  Every fallible release is individually wrapped, so the function
always returns `.ok`. -/
def stopSession (e : StopEnv) : Except String StopEnv :=
  let _disconnects :=
    catchLog (if e.disconnectFailing then .error "disconnect" else .ok ())
  let _sourceStops := e.sources.map (fun h => catchLog (sourceStop e.sourceStopFailing h))
  .ok { e with
    userInitiatedDisconnect := true,
    inputCtx := none,
    outputCtx := none,
    streamTracks := none,
    processorSet := false,
    sessionPromiseSet := false,
    nextStartTime := 0,
    sources := [],
    connected := false,
    isTalking := false,
    isRetrying := false }

/-- Resource-acquisition actions performed by `startSession`. -/
inductive StartAction where
  | createClient
  | createInputContext
  | createOutputContext
  | requestMicrophone
  | connectAttempt (attempt : Nat)
deriving DecidableEq, Repr

/-- State read and written by the prefix of `startSession` up to starting the
connection loop (lines 127-167). -/
structure StartState where
  selectedLanguage : Option Language
  errorMessage : Option String
  userInitiatedDisconnect : Bool
  aiClientSet : Bool
  inputCtxSet : Bool
  outputCtxSet : Bool
  streamActive : Bool
  connected : Bool
  isTalking : Bool
  isRetrying : Bool
deriving DecidableEq, Repr

/-- `startSession`: the missing-language guard (lines 128-131) sets the error
and returns before anything else runs.  Otherwise the error is cleared and the
disconnect flag reset (133-134); a missing API key throws, and the catch
(162-166) sets the friendly message and calls `stopSession`; else the SDK
client is constructed (142), audio contexts are created when absent (146-151),
the microphone is requested when no active stream exists (154-157), and
`connectWithRetry(0)` is started (160).  The returned list records the
resource-acquisition actions performed, in order. -/
def startSession (apiKeyPresent : Bool) (s : StartState) : StartState × List StartAction :=
  match s.selectedLanguage with
  | none => ({ s with errorMessage := some "Please select a language first." }, [])
  | some _ =>
      let s1 := { s with errorMessage := none, userInitiatedDisconnect := false }
      if apiKeyPresent = false then
        ({ s1 with
            errorMessage := some (getFriendlyErrorMessage
              "API Key is missing. Please check your .env file, environment variables, or application configuration."),
            userInitiatedDisconnect := true,
            connected := false, isTalking := false, isRetrying := false }, [])
      else
        let s2 := { s1 with
          aiClientSet := true
          inputCtxSet := true
          outputCtxSet := true
          streamActive := true }
        (s2,
          [StartAction.createClient]
            ++ (if s1.inputCtxSet then [] else [StartAction.createInputContext])
            ++ (if s1.outputCtxSet then [] else [StartAction.createOutputContext])
            ++ (if s1.streamActive then [] else [StartAction.requestMicrophone])
            ++ [StartAction.connectAttempt 0])

set_option maxRecDepth 100000

/-- C6: the session configuration is a deterministic function of
(language, mode): mode `mama` yields voice "Puck" and an instruction
containing a "MALE" directive and the language name; mode `love` yields voice
"Kore" and an instruction containing "FEMALE" and the language name. -/
theorem config_deterministic_per_language (lang : Language) :
    voiceName .mama = "Puck"
      ∧ strIncludes (getSystemInstruction lang .mama) "MALE" = true
      ∧ strIncludes (getSystemInstruction lang .mama) lang.name = true
      ∧ voiceName .love = "Kore"
      ∧ strIncludes (getSystemInstruction lang .love) "FEMALE" = true
      ∧ strIncludes (getSystemInstruction lang .love) lang.name = true := by
  cases lang <;> exact ⟨rfl, by decide, by decide, rfl, by decide, by decide⟩

/-- Helper: the fueled elimination loop only removes elements, so its result is
a sublist of its input. -/
theorem eliminateGo_sublist (fuel : Nat) : ∀ (fl : List Char) (c i : Nat),
    List.Sublist (eliminateGo fuel fl c i) fl := by
  induction fuel with
  | zero => intro fl c i; exact List.Sublist.refl _
  | succ n ih =>
      intro fl c i
      unfold eliminateGo
      split
      · exact (ih _ c _).trans (List.eraseIdx_sublist _ _)
      · exact List.Sublist.refl _

/-- Helper: each round of the elimination loop removes exactly one category;
with enough fuel a nonempty category list ends with exactly one category. -/
theorem eliminateGo_length_one (fuel : Nat) : ∀ (fl : List Char) (c i : Nat),
    fl.length ≤ fuel + 1 → 1 ≤ fl.length → (eliminateGo fuel fl c i).length = 1 := by
  induction fuel with
  | zero =>
      intro fl c i hle hge
      unfold eliminateGo
      omega
  | succ n ih =>
      intro fl c i hle hge
      unfold eliminateGo
      split
      · rename_i h
        have hlt : (i + c - 1) % fl.length < fl.length := Nat.mod_lt _ (by omega)
        apply ih
        · simp only [List.length_eraseIdx, hlt, if_true]
          omega
        · simp only [List.length_eraseIdx, hlt, if_true]
          omega
      · rename_i h
        omega

/-- Helper: the elimination loop's result is a sublist of its input. -/
theorem eliminate_sublist (fl : List Char) (c i : Nat) :
    List.Sublist (eliminate fl c i) fl :=
  eliminateGo_sublist _ _ _ _

/-- Helper: from any nonempty category list the elimination loop terminates
with exactly one category left. -/
theorem eliminate_length_one (fl : List Char) (c i : Nat) (h1 : 1 ≤ fl.length) :
    (eliminate fl c i).length = 1 :=
  eliminateGo_length_one _ _ _ _ (by omega) h1

/-- C9: for every pair of names with nonempty trimmed text, the FLAMES
calculation terminates with exactly one category left (the elimination loop
strictly shrinks the list to length 1) and yields one of the six statuses —
"Unknown" is unreachable; when the two names cancel completely (overlap count
0) the result is "Siblings" with score 0. -/
theorem calculateFlames_total_and_classified :
    (∀ (fl : List Char) (c i : Nat), 1 ≤ fl.length → (eliminate fl c i).length = 1)
    ∧ ∀ name1 name2 : String, jsTrim name1 ≠ "" → jsTrim name2 ≠ "" →
      ∃ r, calculateFlames name1 name2 = some r
        ∧ (r.status = "Friends" ∨ r.status = "Lovers" ∨ r.status = "Affection"
            ∨ r.status = "Marriage" ∨ r.status = "Enemies" ∨ r.status = "Siblings")
        ∧ r.status ≠ "Unknown"
        ∧ (flamesCount name1 name2 = 0 → r.status = "Siblings" ∧ r.score = 0) := by
  refine ⟨eliminate_length_one, ?_⟩
  intro name1 name2 h1 h2
  unfold calculateFlames
  rw [if_neg (by simp [h1, h2])]
  dsimp only
  by_cases hcnt : 0 < flamesCount name1 name2
  · rw [if_pos hcnt]
    have hlen := eliminate_length_one ['F', 'L', 'A', 'M', 'E', 'S']
      (flamesCount name1 name2) 0 (by decide)
    obtain ⟨ch, hch⟩ := List.length_eq_one.mp hlen
    have hmem : ch ∈ ['F', 'L', 'A', 'M', 'E', 'S'] := by
      have hsub :=
        (eliminate_sublist ['F', 'L', 'A', 'M', 'E', 'S'] (flamesCount name1 name2) 0).subset
      rw [hch] at hsub
      exact hsub (by simp)
    rw [hch]
    refine ⟨_, rfl, ?_, ?_, ?_⟩
    · simp only [List.mem_cons, List.not_mem_nil, or_false] at hmem
      rcases hmem with rfl | rfl | rfl | rfl | rfl | rfl <;> simp [flamesSwitch]
    · simp only [List.mem_cons, List.not_mem_nil, or_false] at hmem
      rcases hmem with rfl | rfl | rfl | rfl | rfl | rfl <;> simp [flamesSwitch]
    · intro h0
      omega
  · rw [if_neg hcnt]
    refine ⟨_, rfl, ?_, ?_, ?_⟩
    · simp [flamesSwitch]
    · simp [flamesSwitch]
    · intro h0
      exact ⟨rfl, h0⟩

/-- Witness for C9 at the concrete names "ab" and "ba", whose letters cancel
completely: the computation returns Siblings with score 0. -/
theorem calculateFlames_total_and_classified_witness :
    ∃ r, calculateFlames "ab" "ba" = some r
      ∧ (r.status = "Friends" ∨ r.status = "Lovers" ∨ r.status = "Affection"
          ∨ r.status = "Marriage" ∨ r.status = "Enemies" ∨ r.status = "Siblings")
      ∧ r.status ≠ "Unknown"
      ∧ (flamesCount "ab" "ba" = 0 → r.status = "Siblings" ∧ r.score = 0) :=
  calculateFlames_total_and_classified.2 "ab" "ba" (by decide) (by decide)

/-- Helper: a transient failure below the retry cap (with no user-initiated
stop) schedules one retry after `RETRY_DELAY_MS` with the attempt count
incremented, and continues the loop there. -/
theorem connectWithRetry_retry_step (outcome : Nat → Option String) (attempt : Nat)
    (msg : String) (hout : outcome attempt = some msg)
    (hfat : isFatalConnectionError msg = false) (hlt : attempt < MAX_RETRIES) :
    connectWithRetry outcome false attempt =
      ⟨attempt :: (connectWithRetry outcome false (attempt + 1)).attempts,
        (RETRY_DELAY_MS, attempt + 1) :: (connectWithRetry outcome false (attempt + 1)).retries,
        (connectWithRetry outcome false (attempt + 1)).final⟩ := by
  conv_lhs => rw [connectWithRetry]
  rw [hout]
  dsimp only
  rw [dif_pos ⟨hfat, hlt, rfl⟩]

/-- Helper: a failure that is fatal, or that happens at or above the retry
cap, or after a user-initiated stop, ends the loop surfacing the friendly form
of the last error. -/
theorem connectWithRetry_stop (outcome : Nat → Option String) (userStopped : Bool)
    (attempt : Nat) (msg : String) (hout : outcome attempt = some msg)
    (hcond : ¬(isFatalConnectionError msg = false ∧ attempt < MAX_RETRIES ∧ userStopped = false)) :
    connectWithRetry outcome userStopped attempt =
      ⟨[attempt], [], some (getFriendlyErrorMessage msg)⟩ := by
  conv_lhs => rw [connectWithRetry]
  rw [hout]
  dsimp only
  rw [dif_neg hcond]

/-- C1: the retry policy is bounded and classified.  (a) On a transient
failure with attempt count below 3 and no user-initiated stop, a retry is
scheduled after a fixed 2000 ms delay with the attempt count incremented.
(b) When every attempt fails transiently, the initial attempt is followed by
exactly 3 retries at 2000 ms spacing (attempts 0-3) and the loop then stops,
surfacing the last error (stop = transition to Disconnected via
`stopSession`).  (c) On a fatal authentication-class failure at attempt 0,
zero retries occur. -/
theorem retry_policy_bounded_and_classified (outcome : Nat → Option String) :
    (∀ attempt msg, outcome attempt = some msg → isFatalConnectionError msg = false →
        attempt < MAX_RETRIES →
        connectWithRetry outcome false attempt =
          ⟨attempt :: (connectWithRetry outcome false (attempt + 1)).attempts,
            (RETRY_DELAY_MS, attempt + 1) :: (connectWithRetry outcome false (attempt + 1)).retries,
            (connectWithRetry outcome false (attempt + 1)).final⟩)
    ∧ ((∀ a, a ≤ MAX_RETRIES → ∃ msg, outcome a = some msg ∧ isFatalConnectionError msg = false) →
        ∃ lastMsg, outcome 3 = some lastMsg
          ∧ connectWithRetry outcome false 0 =
              ⟨[0, 1, 2, 3], [(2000, 1), (2000, 2), (2000, 3)],
                some (getFriendlyErrorMessage lastMsg)⟩)
    ∧ (∀ msg, outcome 0 = some msg → isFatalConnectionError msg = true →
        connectWithRetry outcome false 0 = ⟨[0], [], some (getFriendlyErrorMessage msg)⟩) := by
  refine ⟨?_, ?_, ?_⟩
  · intro attempt msg hout hfat hlt
    exact connectWithRetry_retry_step outcome attempt msg hout hfat hlt
  · intro hall
    obtain ⟨m0, h0, f0⟩ := hall 0 (by decide)
    obtain ⟨m1, h1, f1⟩ := hall 1 (by decide)
    obtain ⟨m2, h2, f2⟩ := hall 2 (by decide)
    obtain ⟨m3, h3, f3⟩ := hall 3 (by decide)
    refine ⟨m3, h3, ?_⟩
    have e3 : connectWithRetry outcome false 3 = ⟨[3], [], some (getFriendlyErrorMessage m3)⟩ :=
      connectWithRetry_stop outcome false 3 m3 h3 (fun hh => by
        have := hh.2.1
        simp [MAX_RETRIES] at this)
    rw [connectWithRetry_retry_step outcome 0 m0 h0 f0 (by decide),
      connectWithRetry_retry_step outcome 1 m1 h1 f1 (by decide),
      connectWithRetry_retry_step outcome 2 m2 h2 f2 (by decide), e3]
    rfl
  · intro msg hout hfat
    exact connectWithRetry_stop outcome false 0 msg hout (fun hh => by
      rw [hfat] at hh
      exact absurd hh.1 (by decide))

/-- Witness for C1: with every attempt failing with the transient message
"network blip", the run makes attempts 0-3, schedules exactly 3 retries at
2000 ms, and surfaces the friendly network error. -/
theorem retry_policy_bounded_and_classified_witness :
    ∃ lastMsg, (fun _ : Nat => some "network blip") 3 = some lastMsg
      ∧ connectWithRetry (fun _ : Nat => some "network blip") false 0 =
          ⟨[0, 1, 2, 3], [(2000, 1), (2000, 2), (2000, 3)],
            some (getFriendlyErrorMessage lastMsg)⟩ :=
  (retry_policy_bounded_and_classified (fun _ : Nat => some "network blip")).2.1
    (fun _ _ => ⟨"network blip", rfl, by decide⟩)

/-- Helper: the clamp `if (nextStartTime < currentTime) nextStartTime =
currentTime` computes the maximum of the two. -/
theorem if_lt_eq_max (a b : ℚ) : (if a < b then b else a) = max a b := by
  rcases lt_or_ge a b with h | h
  · rw [if_pos h, max_eq_right h.le]
  · rw [if_neg (not_lt.mpr h), max_eq_left h]

/-- Helper: one unfolding of `schedTrace`, with the clamped start written as a
maximum. -/
theorem schedTrace_cons (cursor now dur : ℚ) (rest : List (ℚ × ℚ)) :
    schedTrace cursor ((now, dur) :: rest) =
      ⟨now, cursor, max cursor now, dur, max cursor now + dur⟩ ::
        schedTrace (max cursor now + dur) rest := by
  simp [schedTrace, scheduleBuffer, if_lt_eq_max]

/-- Helper: the first step of a trace starts from the given cursor. -/
theorem schedTrace_head_cursorBefore (c : ℚ) (l : List (ℚ × ℚ)) :
    ∀ y ∈ (schedTrace c l).head?, y.cursorBefore = c := by
  cases l with
  | nil => simp [schedTrace]
  | cons p r =>
      obtain ⟨now, dur⟩ := p
      rw [schedTrace_cons]
      simp

/-- C2: for any sequence of buffers enqueued consecutively with no
interruption (durations nonnegative): each buffer's start time equals
max(playback cursor, current output-device time) and the cursor then advances
by exactly that buffer's duration; consecutive steps chain (each step's entry
cursor is the previous step's exit cursor); the start times are
non-decreasing; and whenever the next enqueue's device time is at most the
previous buffer's finish time (enqueue before it finishes), the next start
equals the previous start plus the previous duration (gapless). -/
theorem playback_gapless_ordering (cursor : ℚ) (inputs : List (ℚ × ℚ))
    (hdur : ∀ p ∈ inputs, (0:ℚ) ≤ p.2) :
    (∀ s ∈ schedTrace cursor inputs,
        s.start = max s.cursorBefore s.now ∧ s.cursorAfter = s.start + s.dur)
    ∧ List.Chain' (fun a b => b.cursorBefore = a.cursorAfter) (schedTrace cursor inputs)
    ∧ List.Chain' (fun a b => a.start ≤ b.start) (schedTrace cursor inputs)
    ∧ List.Chain' (fun a b => b.now ≤ a.start + a.dur → b.start = a.start + a.dur)
        (schedTrace cursor inputs) := by
  induction inputs generalizing cursor with
  | nil => simp [schedTrace]
  | cons p rest ih =>
    obtain ⟨now, dur⟩ := p
    have hd : (0:ℚ) ≤ dur := hdur (now, dur) (by simp)
    have hrest : ∀ q ∈ rest, (0:ℚ) ≤ q.2 := fun q hq => hdur q (List.mem_cons_of_mem _ hq)
    obtain ⟨ihA, ihB, ihC, ihD⟩ := ih (max cursor now + dur) hrest
    rw [schedTrace_cons]
    refine ⟨?_, ?_, ?_, ?_⟩
    · intro s hs
      rcases List.mem_cons.mp hs with rfl | hs
      · exact ⟨rfl, rfl⟩
      · exact ihA s hs
    · rw [List.chain'_cons']
      refine ⟨?_, ihB⟩
      intro y hy
      exact schedTrace_head_cursorBefore _ _ y hy
    · rw [List.chain'_cons']
      refine ⟨?_, ihC⟩
      intro y hy
      have h1 := schedTrace_head_cursorBefore _ _ y hy
      have h2 := (ihA y (List.mem_of_mem_head? hy)).1
      calc max cursor now ≤ max cursor now + dur := le_add_of_nonneg_right hd
        _ = y.cursorBefore := h1.symm
        _ ≤ max y.cursorBefore y.now := le_max_left _ _
        _ = y.start := h2.symm
    · rw [List.chain'_cons']
      refine ⟨?_, ihD⟩
      intro y hy hnow
      have h1 := schedTrace_head_cursorBefore _ _ y hy
      have h2 := (ihA y (List.mem_of_mem_head? hy)).1
      rw [h2, h1]
      exact max_eq_left hnow

/-- Witness for C2 at cursor 0 with three concrete buffers: the second arrives
while the first is still playing (device time 1/2 < 1) and the third after a
gap (device time 3 > start 1 + duration 1). -/
theorem playback_gapless_ordering_witness :
    (∀ s ∈ schedTrace 0 [((0:ℚ), (1:ℚ)), (1/2, 1), (3, 1)],
        s.start = max s.cursorBefore s.now ∧ s.cursorAfter = s.start + s.dur)
    ∧ List.Chain' (fun a b => b.cursorBefore = a.cursorAfter)
        (schedTrace 0 [((0:ℚ), (1:ℚ)), (1/2, 1), (3, 1)])
    ∧ List.Chain' (fun a b => a.start ≤ b.start)
        (schedTrace 0 [((0:ℚ), (1:ℚ)), (1/2, 1), (3, 1)])
    ∧ List.Chain' (fun a b => b.now ≤ a.start + a.dur → b.start = a.start + a.dur)
        (schedTrace 0 [((0:ℚ), (1:ℚ)), (1/2, 1), (3, 1)]) :=
  playback_gapless_ordering 0 [((0:ℚ), (1:ℚ)), (1/2, 1), (3, 1)] (by norm_num)

/-- Helper: the try/catch around `src.stop()` makes the forEach visit every
handle whether or not its stop throws. -/
theorem interrupt_calls_eq (failing : List Nat) (s : PlaybackState) :
    (interrupt failing s).2 = s.sources := by
  unfold interrupt
  dsimp only
  have hid : ∀ h : Nat, (match sourceStop failing h with
      | .ok _ => h
      | .error _ => h) = h := by
    intro h
    unfold sourceStop
    split <;> rfl
  simp [hid]

/-- C5: on a server-sent interruption every handle in the active source set
receives a stop call — already-finished handles make that call throw, and the
failure is swallowed, so the outcome does not depend on which handles fail —
the set is emptied, the playback cursor resets to 0 and the talking flag is
cleared; performing the interruption a second time is safe (it stops nothing
and leaves the same idle state). -/
theorem interrupt_stops_all_idempotent (failing : List Nat) (s : PlaybackState) :
    interrupt failing s = (⟨[], 0, false⟩, s.sources)
    ∧ interrupt failing (interrupt failing s).1 = (⟨[], 0, false⟩, []) := by
  constructor
  · have h1 := interrupt_calls_eq failing s
    have h2 : interrupt failing s = ((interrupt failing s).1, (interrupt failing s).2) := rfl
    rw [h2, h1]
    rfl
  · rfl

/-- Helper: decoding fails on every odd-length byte payload. -/
theorem decodeAudioData_odd : ∀ (bytes : List Nat), bytes.length % 2 = 1 →
    decodeAudioData bytes = .error "DecodeError"
  | [], h => absurd h (by decide)
  | [_], _ => rfl
  | lo :: hi :: rest, h => by
      have h2 : rest.length % 2 = 1 := by
        simp [List.length_cons] at h
        omega
      simp [decodeAudioData, decodeAudioData_odd rest h2]

/-- C4 counterexample: a malformed (odd-length, 3-byte) audio payload arriving
while `isTalking` is false leaves the talking flag true afterwards — the
handler runs `setIsTalking(true)` before the decode `try` block — so the
talking flag is not unaffected as claimed. -/
theorem malformed_frame_talking_counterexample :
    (handleAudioMessage [0, 0, 0] 0 7 ⟨[], 5, false⟩).isTalking = true
      ∧ (⟨[], 5, false⟩ : PlaybackState).isTalking = false :=
  ⟨rfl, rfl⟩

/-- C4 amended: a malformed (odd-length) inbound audio payload fails to
decode and the failure is recovered locally — the frame is dropped (no source
added, cursor not advanced by any duration), the session continues and no
exception escapes the handler (the decode error is consumed by the catch) —
but the `talking` flag is set to true by the pre-decode `setIsTalking(true)`,
and the cursor is clamped up to the current device time. -/
theorem malformed_frame_dropped (bytes : List Nat) (now : ℚ) (newHandle : Nat)
    (s : PlaybackState) (hodd : bytes.length % 2 = 1) :
    decodeAudioData bytes = .error "DecodeError"
    ∧ handleAudioMessage bytes now newHandle s =
        { s with isTalking := true,
                 nextStartTime := max s.nextStartTime now } := by
  have hdec := decodeAudioData_odd bytes hodd
  refine ⟨hdec, ?_⟩
  unfold handleAudioMessage
  rw [hdec]
  dsimp only
  rw [if_lt_eq_max]

/-- Witness for C4's amended claim at the concrete odd payload `[0, 0, 0]`
arriving at device time 6 with cursor 5, one active source and talking off. -/
theorem malformed_frame_dropped_witness :
    decodeAudioData [0, 0, 0] = .error "DecodeError"
    ∧ handleAudioMessage [0, 0, 0] (6 : ℚ) 7 ⟨[3], 5, false⟩ =
        { sources := [3], nextStartTime := max 5 6, isTalking := true } :=
  malformed_frame_dropped [0, 0, 0] 6 7 ⟨[3], 5, false⟩ (by decide)

/-- C7 counterexample: after `onclose` fires in a state where the processor
tap is attached and the session promise is set, capture is not stopped and
capture frames are still forwarded — contradicting "audio capture is stopped,
so no further capture frames are forwarded after close". -/
theorem onclose_capture_counterexample :
    captureForwards (onclose ⟨true, true, true, true⟩) = true
      ∧ (onclose ⟨true, true, true, true⟩).processorAttached = true :=
  ⟨rfl, rfl⟩

/-- C7 amended: on a close event the session state transitions to
Disconnected (`connected = false`, talking cleared) but audio capture is not
stopped: the processor tap and the session promise reference are untouched,
so capture frames continue to be forwarded exactly as before the close (their
send failures are silently swallowed). -/
theorem onclose_disconnects_but_capture_continues (s : SessionState) :
    (onclose s).connected = false
    ∧ (onclose s).isTalking = false
    ∧ (onclose s).processorAttached = s.processorAttached
    ∧ (onclose s).sessionPromiseSet = s.sessionPromiseSet
    ∧ captureForwards (onclose s) = captureForwards s :=
  ⟨rfl, rfl, rfl, rfl, rfl⟩

/-- C3 counterexample: with one failed attempt logged and a retry timer
pending (next attempt 1), a user-initiated stop does not cancel the timer;
when the timer fires, a further connection attempt is started — the attempt
log grows from [0] to [0, 1] — contradicting "after a user-initiated stop, no
further connection attempt is ever made"; the flag is not read at the top of
the retry callback, only in its failure handler. -/
theorem userStop_pending_retry_counterexample :
    (userStop ⟨some 1, false, false, [0]⟩).attemptsMade = [0]
      ∧ (fireRetryTimer (some "network error")
          (userStop ⟨some 1, false, false, [0]⟩)).attemptsMade = [0, 1] := by
  refine ⟨rfl, ?_⟩
  decide

/-- C3 amended: a user-initiated stop does not suppress a pending retry
timer; when the timer fires, exactly one further connection attempt is made,
and because the `userInitiatedDisconnect` flag is read in the attempt's
failure handler, no additional retry is scheduled once that attempt fails
(the pending-retry slot is left empty). -/
theorem userStop_allows_one_more_attempt (s : RetryTimerState) (a : Nat) (msg : String)
    (hp : s.pendingRetry = some a) :
    (fireRetryTimer (some msg) (userStop s)).attemptsMade = s.attemptsMade ++ [a]
    ∧ (fireRetryTimer (some msg) (userStop s)).pendingRetry = none := by
  simp [userStop, fireRetryTimer, hp]

/-- Witness for C3's amended claim: a stop with attempts [0, 1] logged and a
retry pending for attempt 2; the timer then fires and fails with "boom". -/
theorem userStop_allows_one_more_attempt_witness :
    (fireRetryTimer (some "boom") (userStop ⟨some 2, false, true, [0, 1]⟩)).attemptsMade
        = [0, 1] ++ [2]
    ∧ (fireRetryTimer (some "boom") (userStop ⟨some 2, false, true, [0, 1]⟩)).pendingRetry
        = none :=
  userStop_allows_one_more_attempt ⟨some 2, false, true, [0, 1]⟩ 2 "boom" rfl

/-- C8 counterexample: after `stopSession` on a fully-populated environment,
the input-source and AI-client refs are still set — `inputSourceRef` and
`aiClientRef` are missing from the ref-reset block (lines 89-94) — so
teardown does not leave "all refs cleared" as claimed. -/
theorem stopSession_refs_counterexample :
    ∃ e', stopSession
        { inputCtx := some .running
          outputCtx := some .running
          streamTracks := some [false]
          processorSet := true
          inputSourceSet := true
          sessionPromiseSet := true
          aiClientSet := true
          sources := [4]
          nextStartTime := 2
          connected := true
          isTalking := true
          isRetrying := false
          errorMessage := some "Connection error: x"
          userInitiatedDisconnect := false
          disconnectFailing := false
          sourceStopFailing := [] } = .ok e'
      ∧ e'.inputSourceSet = true
      ∧ e'.aiClientSet = true :=
  ⟨_, rfl, rfl, rfl⟩

/-- C8 amended: a user-initiated stop never throws — every release operation
that can fail (node disconnects, source stops, context-close rejections) is
individually caught — and teardown always completes even from partially
released states, setting the user-stop flag, resetting the observable flags,
emptying the source set and clearing the context/stream/processor/session
refs and cursor; it is idempotent (a second stop returns the same state).
The input-source and AI-client refs, and the error message, are left
unchanged. -/
theorem stopSession_total_idempotent (e : StopEnv) :
    ∃ e', stopSession e = .ok e'
      ∧ e'.userInitiatedDisconnect = true
      ∧ e'.connected = false
      ∧ e'.isTalking = false
      ∧ e'.isRetrying = false
      ∧ e'.inputCtx = none
      ∧ e'.outputCtx = none
      ∧ e'.streamTracks = none
      ∧ e'.processorSet = false
      ∧ e'.sessionPromiseSet = false
      ∧ e'.nextStartTime = 0
      ∧ e'.sources = []
      ∧ e'.inputSourceSet = e.inputSourceSet
      ∧ e'.aiClientSet = e.aiClientSet
      ∧ e'.errorMessage = e.errorMessage
      ∧ stopSession e' = .ok e' :=
  ⟨_, rfl, rfl, rfl, rfl, rfl, rfl, rfl, rfl, rfl, rfl, rfl, rfl, rfl, rfl, rfl, rfl⟩

/-- C10: calling `startSession` with no language selected fails fast: the
error message becomes "Please select a language first." and the function
returns with no actions performed — no AI client, no audio context, no
microphone request, no connection attempt — and every other field of the
state unchanged. -/
theorem startSession_requires_language (apiKeyPresent : Bool) (s : StartState)
    (hnone : s.selectedLanguage = none) :
    startSession apiKeyPresent s =
        ({ s with errorMessage := some "Please select a language first." }, [])
    ∧ (startSession apiKeyPresent s).2 = []
    ∧ (startSession apiKeyPresent s).1.aiClientSet = s.aiClientSet
    ∧ (startSession apiKeyPresent s).1.inputCtxSet = s.inputCtxSet
    ∧ (startSession apiKeyPresent s).1.outputCtxSet = s.outputCtxSet
    ∧ (startSession apiKeyPresent s).1.streamActive = s.streamActive
    ∧ (startSession apiKeyPresent s).1.connected = s.connected
    ∧ (startSession apiKeyPresent s).1.isTalking = s.isTalking
    ∧ (startSession apiKeyPresent s).1.isRetrying = s.isRetrying
    ∧ (startSession apiKeyPresent s).1.userInitiatedDisconnect = s.userInitiatedDisconnect := by
  simp [startSession, hnone]

/-- Witness for C10: a concrete fresh state with no language selected, the
API key present. -/
theorem startSession_requires_language_witness :
    startSession true
        { selectedLanguage := none
          errorMessage := none
          userInitiatedDisconnect := false
          aiClientSet := false
          inputCtxSet := false
          outputCtxSet := false
          streamActive := false
          connected := false
          isTalking := false
          isRetrying := false } =
      ({ selectedLanguage := none
         errorMessage := some "Please select a language first."
         userInitiatedDisconnect := false
         aiClientSet := false
         inputCtxSet := false
         outputCtxSet := false
         streamActive := false
         connected := false
         isTalking := false
         isRetrying := false }, []) :=
  (startSession_requires_language true
    { selectedLanguage := none
      errorMessage := none
      userInitiatedDisconnect := false
      aiClientSet := false
      inputCtxSet := false
      outputCtxSet := false
      streamActive := false
      connected := false
      isTalking := false
      isRetrying := false } rfl).1

end MamaAI
